import Mathlib

/-!
Verification of the DC2LI diagnostic/monitoring tool (src/dc2li.py, src/dcli.py)
against its natural-language specification.

Metric values and thresholds are Python floats in the source; they are embedded
as rationals, with the literal 0.7 embedded as 7/10. The alert and warning
message strings that the source appends to its lists are embedded as the
(metric, value) pairs they format, in the source's append order. Network and
remote-shell effects are embedded by passing the outcome environment (what the
socket, the SSH transport and each remote command would return) as an explicit
argument, so every exit path of the source is a case of the Lean definition.
-/

namespace DC2LI

/-- The three monitored metrics, in the fixed order the source checks them. -/
inductive Metric
  | cpu
  | memory
  | disk
deriving DecidableEq, Repr

/-- A stats snapshot as built by get_remote_stats or _monitor_local in
src/dc2li.py: a dict with keys cpu, memory, disk holding floats. -/
structure Stats where
  cpu : ℚ
  memory : ℚ
  disk : ℚ
deriving DecidableEq, Repr

/-- Look up the field of a Stats dict for a metric. -/
def Stats.get (s : Stats) : Metric → ℚ
  | .cpu => s.cpu
  | .memory => s.memory
  | .disk => s.disk

/-- Select the per-metric threshold from the three threshold arguments of
_check_thresholds, in source order (threshold_cpu, threshold_mem, threshold_disk). -/
def thresholdFor (threshold_cpu threshold_mem threshold_disk : ℚ) : Metric → ℚ
  | .cpu => threshold_cpu
  | .memory => threshold_mem
  | .disk => threshold_disk

/-- The warning factor 0.7 of src/dc2li.py: the local variable warning_factor
in _check_thresholds (line 280) and the default parameter of
get_color_for_metric (line 106). -/
def warning_factor : ℚ := 7 / 10

/-- Embedding of get_color_for_metric (src/dc2li.py lines 106-123). -/
def get_color_for_metric (value threshold wf : ℚ) : String :=
  if value > threshold then "red"
  else if value > threshold * wf then "yellow"
  else "green"

/-- The alerts list built by _check_thresholds (src/dc2li.py lines 271-277):
one entry per metric whose value strictly exceeds its threshold, in the fixed
cpu, memory, disk order. -/
def check_alerts (stats : Stats) (threshold_cpu threshold_mem threshold_disk : ℚ) :
    List (Metric × ℚ) :=
  (if stats.cpu > threshold_cpu then [(Metric.cpu, stats.cpu)] else []) ++
  (if stats.memory > threshold_mem then [(Metric.memory, stats.memory)] else []) ++
  (if stats.disk > threshold_disk then [(Metric.disk, stats.disk)] else [])

/-- The warnings list built by _check_thresholds (src/dc2li.py lines 279-286):
one entry per metric with threshold * warning_factor < value <= threshold, in
the fixed cpu, memory, disk order. -/
def check_warnings (stats : Stats) (threshold_cpu threshold_mem threshold_disk : ℚ) :
    List (Metric × ℚ) :=
  (if threshold_cpu * warning_factor < stats.cpu ∧ stats.cpu ≤ threshold_cpu then
    [(Metric.cpu, stats.cpu)] else []) ++
  (if threshold_mem * warning_factor < stats.memory ∧ stats.memory ≤ threshold_mem then
    [(Metric.memory, stats.memory)] else []) ++
  (if threshold_disk * warning_factor < stats.disk ∧ stats.disk ≤ threshold_disk then
    [(Metric.disk, stats.disk)] else [])

/-- Embedding of _check_thresholds (src/dc2li.py lines 266-288): returns the
pair (alerts, warnings). -/
def check_thresholds (stats : Stats) (threshold_cpu threshold_mem threshold_disk : ℚ) :
    List (Metric × ℚ) × List (Metric × ℚ) :=
  (check_alerts stats threshold_cpu threshold_mem threshold_disk,
   check_warnings stats threshold_cpu threshold_mem threshold_disk)

/-- Outcome of one exec_command plus stdout.read().decode() against the remote
session: the decoded output string, or an exception from the transport. -/
inductive ExecResult
  | ok (stdout : String)
  | raise
deriving DecidableEq

/-- Model of Python str.strip() with no argument: drop whitespace from both
ends of the character list. -/
def stripChars (cs : List Char) : List Char :=
  ((cs.dropWhile Char.isWhitespace).reverse.dropWhile Char.isWhitespace).reverse

/-- Value of a digit string, most significant first. -/
def digitsToNat (cs : List Char) : Nat :=
  cs.foldl (fun n c => 10 * n + (c.toNat - 48)) 0

/-- Unsigned decimal literal: digits, optionally followed by a dot and digits,
with at least one digit present. -/
def parseUnsignedDecimal (cs : List Char) : Option ℚ :=
  match cs.span (fun c => c.isDigit) with
  | (intPart, rest) =>
    match rest with
    | [] => if intPart.isEmpty then none else some (digitsToNat intPart : ℚ)
    | '.' :: frac =>
      if frac.all (fun c => c.isDigit) && !(intPart.isEmpty && frac.isEmpty) then
        some ((digitsToNat intPart : ℚ) + (digitsToNat frac : ℚ) / (10 : ℚ) ^ frac.length)
      else none
    | _ => none

/-- Model of Python float() on a stripped, non-empty character list,
restricted to optionally signed decimal literals, the output shape of the
three metric pipelines of get_remote_stats; any other string makes float()
raise ValueError, modelled as none. -/
def pyFloatChars (cs : List Char) : Option ℚ :=
  match cs with
  | '-' :: rest => (parseUnsignedDecimal rest).map (fun q => -q)
  | '+' :: rest => parseUnsignedDecimal rest
  | _ => parseUnsignedDecimal cs

/-- One metric read of get_remote_stats (src/dc2li.py lines 57-75): run the
command, strip the output, then evaluate the expression
float(x) if x else 0 — an empty stripped string yields 0 without calling
float, a non-numeric string makes float raise, and a transport exception
propagates. Error means an exception escapes to the handler of line 77. -/
def read_metric (r : ExecResult) : Except Unit ℚ :=
  match r with
  | .raise => .error ()
  | .ok out =>
    match stripChars out.data with
    | [] => .ok 0
    | cs =>
      match pyFloatChars cs with
      | some v => .ok v
      | none => .error ()

/-- Embedding of get_remote_stats (src/dc2li.py lines 43-81). The client is
the session environment: what each metric's command execution returns. The
three reads run in sequence inside one try block; an exception at any point
jumps to the handler, which rebinds stats wholesale to all zeros (line 79),
discarding any metric already collected. -/
def get_remote_stats (client : Metric → ExecResult) : Stats :=
  match read_metric (client .cpu) with
  | .error _ => ⟨0, 0, 0⟩
  | .ok c =>
    match read_metric (client .memory) with
    | .error _ => ⟨0, 0, 0⟩
    | .ok m =>
      match read_metric (client .disk) with
      | .error _ => ⟨0, 0, 0⟩
      | .ok d => ⟨c, m, d⟩

/-- Outcome of sock.connect_ex inside test_connectivity: an error code
(0 means the TCP connect completed), or an exception (DNS failure,
unreachable network, any other socket fault). -/
inductive ConnectOutcome
  | code (result : Int)
  | exn
deriving DecidableEq

/-- Embedding of test_connectivity (src/dc2li.py lines 84-103). The net
argument is the network environment: what connect_ex would produce for a
given host, port and timeout. -/
def test_connectivity (host : String) (port : Nat) (timeout : ℚ)
    (net : String → Nat → ℚ → ConnectOutcome) : Bool :=
  match net host port timeout with
  | .code r => r == 0
  | .exn => false

/-- Host-key verification policies paramiko offers; the source picks one of
these for the client before connecting. -/
inductive HostKeyPolicy
  | autoAdd
  | reject
deriving DecidableEq

/-- The credential variant ssh_connect selects from its optional arguments,
in source priority order: explicit key, else explicit password, else the
ambient agent or default keys. -/
inductive Credential
  | key (path : String)
  | password (secret : String)
  | agent
deriving DecidableEq

/-- A connection attempt as configured by ssh_connect just before
client.connect: the host-key policy installed on the client and the
credential variant passed to connect. -/
structure ConnectAttempt where
  policy : HostKeyPolicy
  credential : Credential
deriving DecidableEq

/-- Outcome of paramiko client.connect for a configured attempt: it either
returns, or raises (auth rejected, network fault). -/
inductive ConnectResult
  | accepted
  | refused
deriving DecidableEq

/-- The credential variant ssh_connect picks from key_path and password
(src/dc2li.py lines 31-36). -/
def pick_credential (key_path password : Option String) : Credential :=
  match key_path with
  | some p => Credential.key p
  | none =>
    match password with
    | some s => Credential.password s
    | none => Credential.agent

/-- Embedding of ssh_connect (src/dc2li.py lines 13-40). Returns the host-key
policy the function installed on the client (line 28 runs before any
connect on every call) together with the connection result: the configured
attempt when connect returned, none when it raised (handler of line 38
returns None). -/
def ssh_connect (host user : String) (key_path password : Option String) (timeout : ℚ)
    (net : ConnectAttempt → ConnectResult) : HostKeyPolicy × Option ConnectAttempt :=
  match net ⟨HostKeyPolicy.autoAdd, pick_credential key_path password⟩ with
  | .accepted => (HostKeyPolicy.autoAdd, some ⟨HostKeyPolicy.autoAdd, pick_credential key_path password⟩)
  | .refused => (HostKeyPolicy.autoAdd, none)

/-- How a remote monitoring run of _monitor_remote ended. -/
inductive HostStatus
  | unreachable
  | connectFailed
  | completed
  | faulted
deriving DecidableEq

/-- Observable outcome of one _monitor_remote run: how it ended, whether an
SSH session was opened and whether it was closed, the stats that reached
display, and the troubleshooting lines printed. -/
structure MonitorReport where
  status : HostStatus
  sessionOpened : Bool
  sessionClosed : Bool
  stats : Option Stats
  diagnostics : List String
deriving DecidableEq

/-- The four troubleshooting tips printed by _monitor_remote
(src/dc2li.py lines 199-202): string literals, independent of the
environment. -/
def troubleshooting_tips : List String :=
  ["Check if the host is online",
   "Verify SSH service is running",
   "Check firewall settings",
   "Verify network connectivity"]

/-- Embedding of _monitor_remote (src/dc2li.py lines 190-218). The source
first probes port 22 with test_connectivity and returns the tips on failure;
then calls ssh_connect and returns if it yielded None; then runs
get_remote_stats and display inside try, with client.close() in the finally
clause, so the close runs whether the body returns or raises.
displayFaults abstracts an exception raised inside the try body after
collection (get_remote_stats itself catches its own exceptions). -/
def monitor_remote (host user : String) (key_path password : Option String)
    (timeout : ℚ) (net : String → Nat → ℚ → ConnectOutcome)
    (sshNet : ConnectAttempt → ConnectResult)
    (client : Metric → ExecResult) (displayFaults : Bool) : MonitorReport :=
  if !(test_connectivity host 22 timeout net) then
    ⟨HostStatus.unreachable, false, false, none, troubleshooting_tips⟩
  else
    match (ssh_connect host user key_path password timeout sshNet).2 with
    | none => ⟨HostStatus.connectFailed, false, false, none, []⟩
    | some _ =>
      if displayFaults then ⟨HostStatus.faulted, true, true, none, []⟩
      else ⟨HostStatus.completed, true, true, some (get_remote_stats client), []⟩

end DC2LI

namespace DCLI

/-- Outcome of a step (exec_command plus stdout.read) in dcli.py's monitor:
it returns, or it raises. -/
inductive StepOutcome
  | ok
  | raises
deriving DecidableEq

/-- Embedding of ssh_connect (src/dcli.py lines 10-19): with neither
key_path nor password it raises ValueError before connecting; with a
credential it connects, and a connect fault propagates (no handler). -/
def ssh_connect (host user : String) (key_path password : Option String)
    (net : DC2LI.ConnectResult) : Except String Unit :=
  match key_path with
  | some _ =>
    match net with
    | .accepted => .ok ()
    | .refused => .error "connect raised"
  | none =>
    match password with
    | some _ =>
      match net with
      | .accepted => .ok ()
      | .refused => .error "connect raised"
    | none => .error "Provide key_path or password for SSH"

/-- Session bookkeeping of one remote monitor run in dcli.py. -/
structure RunTrace where
  sessionOpened : Bool
  sessionClosed : Bool
deriving DecidableEq

/-- Embedding of the remote branch of monitor (src/dcli.py lines 82-88):
it calls ssh_connect(host, 'admin') with neither key_path nor password;
a raised exception propagates with no session. After a successful connect
it runs exec_command and read, and client.close() runs only after the read
returns — there is no try/finally on this path. -/
def monitor_remote (host : String) (net : DC2LI.ConnectResult)
    (exec : StepOutcome) : RunTrace :=
  match ssh_connect host "admin" none none net with
  | .error _ => ⟨false, false⟩
  | .ok _ =>
    match exec with
    | .raises => ⟨true, false⟩
    | .ok => ⟨true, true⟩

end DCLI

open DC2LI

/-- Membership of a metric's entry in the alerts list of _check_thresholds is
exactly the strict threshold exceedance of that metric. -/
lemma mem_alerts_iff (stats : Stats) (tc tm td : ℚ) (m : Metric) :
    (m, stats.get m) ∈ (check_thresholds stats tc tm td).1 ↔
      thresholdFor tc tm td m < stats.get m := by
  cases m <;>
    simp only [check_thresholds, check_alerts, Stats.get, thresholdFor, List.mem_append,
      gt_iff_lt] <;>
    split_ifs <;> simp_all

/-- Membership of a metric's entry in the warnings list of _check_thresholds
is exactly the warning band condition of that metric. -/
lemma mem_warnings_iff (stats : Stats) (tc tm td : ℚ) (m : Metric) :
    (m, stats.get m) ∈ (check_thresholds stats tc tm td).2 ↔
      (thresholdFor tc tm td m * warning_factor < stats.get m ∧
        stats.get m ≤ thresholdFor tc tm td m) := by
  cases m <;>
    simp only [check_thresholds, check_warnings, Stats.get, thresholdFor, List.mem_append] <;>
    split_ifs <;> simp_all

/-- C1: for every stats snapshot and positive thresholds, _check_thresholds
appends a metric to alerts iff its value strictly exceeds its threshold,
appends it to warnings iff threshold * 0.7 < value <= threshold, and
otherwise leaves no entry; no metric lands in both lists, and the single
constant warning_factor = 7/10 governs all three metrics alike. -/
theorem check_thresholds_classifies_bands (stats : Stats) (tc tm td : ℚ)
    (htc : 0 < tc) (htm : 0 < tm) (htd : 0 < td) (m : Metric) :
    ((m, stats.get m) ∈ (check_thresholds stats tc tm td).1 ↔
      stats.get m > thresholdFor tc tm td m) ∧
    ((m, stats.get m) ∈ (check_thresholds stats tc tm td).2 ↔
      (thresholdFor tc tm td m * warning_factor < stats.get m ∧
        stats.get m ≤ thresholdFor tc tm td m)) ∧
    ¬((m, stats.get m) ∈ (check_thresholds stats tc tm td).1 ∧
      (m, stats.get m) ∈ (check_thresholds stats tc tm td).2) := by
  refine ⟨mem_alerts_iff stats tc tm td m, mem_warnings_iff stats tc tm td m, ?_⟩
  rintro ⟨h1, h2⟩
  rw [mem_alerts_iff] at h1
  rw [mem_warnings_iff] at h2
  exact absurd h1 (not_lt.mpr h2.2)

/-- C1 witness: at stats (81, 60, 92) against thresholds 80, 85, 90 the
hypotheses hold and the cpu metric is in alerts because 81 > 80. -/
theorem check_thresholds_classifies_bands_witness :
    (0 : ℚ) < 80 ∧
    ((Metric.cpu, Stats.get ⟨81, 60, 92⟩ Metric.cpu) ∈
        (check_thresholds ⟨81, 60, 92⟩ 80 85 90).1 ↔
      Stats.get ⟨81, 60, 92⟩ Metric.cpu > thresholdFor 80 85 90 Metric.cpu) :=
  ⟨by norm_num,
   (check_thresholds_classifies_bands ⟨81, 60, 92⟩ 80 85 90 (by norm_num) (by norm_num)
     (by norm_num) Metric.cpu).1⟩

/-- C2 counterexample: with every value exactly equal to its positive
threshold (all 80), _check_thresholds produces no alert entry and marks the
cpu metric a warning, refuting the claim that a value equal to the threshold
falls in the Critical band. -/
theorem equal_threshold_counterexample :
    (check_thresholds ⟨80, 80, 80⟩ 80 80 80).1 = [] ∧
    (Metric.cpu, (80 : ℚ)) ∈ (check_thresholds ⟨80, 80, 80⟩ 80 80 80).2 := by
  have h : check_thresholds ⟨80, 80, 80⟩ 80 80 80 =
      ([], [(Metric.cpu, 80), (Metric.memory, 80), (Metric.disk, 80)]) := by
    norm_num [check_thresholds, check_alerts, check_warnings, warning_factor]
  rw [h]
  exact ⟨rfl, by simp⟩

/-- C2 (amended): for every metric whose value equals its positive threshold,
_check_thresholds yields a warning entry and no alert entry — the strict
greater-than alert bound places the value equal to the threshold in the
Warning band, not the Critical band. -/
theorem equal_threshold_is_warning (stats : Stats) (tc tm td : ℚ) (m : Metric)
    (ht : 0 < thresholdFor tc tm td m)
    (hv : stats.get m = thresholdFor tc tm td m) :
    (m, stats.get m) ∈ (check_thresholds stats tc tm td).2 ∧
    (m, stats.get m) ∉ (check_thresholds stats tc tm td).1 := by
  constructor
  · rw [mem_warnings_iff, hv]
    refine ⟨?_, le_refl _⟩
    have hwf : warning_factor = 7 / 10 := rfl
    rw [hwf]
    linarith
  · rw [mem_alerts_iff, hv]
    exact lt_irrefl _

/-- C2 witness: at stats (80, 80, 80) against thresholds 80, 80, 80 the
hypotheses hold and the cpu metric lands in warnings. -/
theorem equal_threshold_is_warning_witness :
    (0 : ℚ) < thresholdFor 80 80 80 Metric.cpu ∧
    Stats.get ⟨80, 80, 80⟩ Metric.cpu = thresholdFor 80 80 80 Metric.cpu ∧
    (Metric.cpu, Stats.get ⟨80, 80, 80⟩ Metric.cpu) ∈
      (check_thresholds ⟨80, 80, 80⟩ 80 80 80).2 :=
  ⟨by norm_num [thresholdFor], rfl,
   (equal_threshold_is_warning ⟨80, 80, 80⟩ 80 80 80 Metric.cpu
     (by norm_num [thresholdFor]) rfl).1⟩

/-- C10: for every value, positive threshold and the default warning factor,
get_color_for_metric agrees with _check_thresholds: red iff the metric is in
alerts, yellow iff it is in warnings, green iff it is in neither. -/
theorem get_color_agrees_with_thresholds (stats : Stats) (tc tm td : ℚ)
    (htc : 0 < tc) (htm : 0 < tm) (htd : 0 < td) (m : Metric) :
    (get_color_for_metric (stats.get m) (thresholdFor tc tm td m) warning_factor = "red" ↔
      (m, stats.get m) ∈ (check_thresholds stats tc tm td).1) ∧
    (get_color_for_metric (stats.get m) (thresholdFor tc tm td m) warning_factor = "yellow" ↔
      (m, stats.get m) ∈ (check_thresholds stats tc tm td).2) ∧
    (get_color_for_metric (stats.get m) (thresholdFor tc tm td m) warning_factor = "green" ↔
      ((m, stats.get m) ∉ (check_thresholds stats tc tm td).1 ∧
        (m, stats.get m) ∉ (check_thresholds stats tc tm td).2)) := by
  rw [mem_alerts_iff, mem_warnings_iff]
  by_cases h1 : thresholdFor tc tm td m < stats.get m
  · have hc : get_color_for_metric (stats.get m) (thresholdFor tc tm td m) warning_factor =
        "red" := by
      simp [get_color_for_metric, h1]
    rw [hc]
    refine ⟨⟨fun _ => h1, fun _ => rfl⟩, ⟨fun h => absurd h (by decide), ?_⟩,
      ⟨fun h => absurd h (by decide), ?_⟩⟩
    · rintro ⟨_, hle⟩
      exact absurd h1 (not_lt.mpr hle)
    · rintro ⟨hna, _⟩
      exact absurd h1 hna
  · by_cases h2 : thresholdFor tc tm td m * warning_factor < stats.get m
    · have hc : get_color_for_metric (stats.get m) (thresholdFor tc tm td m) warning_factor =
          "yellow" := by
        simp [get_color_for_metric, h1, h2]
      rw [hc]
      refine ⟨⟨fun h => absurd h (by decide), fun hlt => absurd hlt h1⟩,
        ⟨fun _ => ⟨h2, not_lt.mp h1⟩, fun _ => rfl⟩,
        ⟨fun h => absurd h (by decide), ?_⟩⟩
      rintro ⟨_, hnw⟩
      exact absurd ⟨h2, not_lt.mp h1⟩ hnw
    · have hc : get_color_for_metric (stats.get m) (thresholdFor tc tm td m) warning_factor =
          "green" := by
        simp [get_color_for_metric, h1, h2]
      rw [hc]
      refine ⟨⟨fun h => absurd h (by decide), fun hlt => absurd hlt h1⟩,
        ⟨fun h => absurd h (by decide), ?_⟩,
        ⟨fun _ => ⟨h1, ?_⟩, fun _ => rfl⟩⟩
      · rintro ⟨hw2, _⟩
        exact absurd hw2 h2
      · rintro ⟨hw2, _⟩
        exact absurd hw2 h2

/-- C10 witness: at stats (81, 60, 92) against thresholds 80, 85, 90 the
hypotheses hold and the cpu color is red exactly because cpu is in alerts. -/
theorem get_color_agrees_with_thresholds_witness :
    (0 : ℚ) < 80 ∧
    (get_color_for_metric (Stats.get ⟨81, 60, 92⟩ Metric.cpu)
        (thresholdFor 80 85 90 Metric.cpu) warning_factor = "red" ↔
      (Metric.cpu, Stats.get ⟨81, 60, 92⟩ Metric.cpu) ∈
        (check_thresholds ⟨81, 60, 92⟩ 80 85 90).1) :=
  ⟨by norm_num,
   (get_color_agrees_with_thresholds ⟨81, 60, 92⟩ 80 85 90 (by norm_num) (by norm_num)
     (by norm_num) Metric.cpu).1⟩

/-- C3 (code behavior at the failing input): a metric whose value could not
be obtained — the cpu command printed nothing — is silently coerced to the
float 0 in the returned Stats; get_remote_stats has no unknown marking at
all, every field of its result is a number. -/
theorem empty_output_coerced_to_zero :
    get_remote_stats (fun m => match m with
      | Metric.cpu => ExecResult.ok ""
      | Metric.memory => ExecResult.ok "42.0"
      | Metric.disk => ExecResult.ok "55") = ⟨0, 42, 55⟩ := by
  have h : get_remote_stats (fun m => match m with
      | Metric.cpu => ExecResult.ok ""
      | Metric.memory => ExecResult.ok "42.0"
      | Metric.disk => ExecResult.ok "55") =
      ⟨0, ((42 : ℕ) : ℚ) + ((0 : ℕ) : ℚ) / (10 : ℚ) ^ (1 : ℕ), ((55 : ℕ) : ℚ)⟩ := rfl
  rw [h]
  norm_num [Stats.mk.injEq]

/-- C4 (code behavior at the failing input): get_remote_stats strips trailing
whitespace before parsing, but a non-numeric output for the cpu metric makes
float raise inside the shared try block, and the handler rebinds all three
metrics to 0 — collection of the other two metrics is aborted, and no metric
is marked unknown. -/
theorem nonnumeric_output_aborts_collection :
    get_remote_stats (fun m => match m with
      | Metric.cpu => ExecResult.ok "37.5 \n"
      | Metric.memory => ExecResult.ok "50"
      | Metric.disk => ExecResult.ok "60") = ⟨75 / 2, 50, 60⟩ ∧
    get_remote_stats (fun m => match m with
      | Metric.cpu => ExecResult.ok "N/A"
      | Metric.memory => ExecResult.ok "50"
      | Metric.disk => ExecResult.ok "60") = ⟨0, 0, 0⟩ := by
  constructor
  · have h : get_remote_stats (fun m => match m with
        | Metric.cpu => ExecResult.ok "37.5 \n"
        | Metric.memory => ExecResult.ok "50"
        | Metric.disk => ExecResult.ok "60") =
        ⟨((37 : ℕ) : ℚ) + ((5 : ℕ) : ℚ) / (10 : ℚ) ^ (1 : ℕ), ((50 : ℕ) : ℚ),
          ((60 : ℕ) : ℚ)⟩ := rfl
    rw [h]
    norm_num [Stats.mk.injEq]
  · rfl

/-- C5 (code behavior at the failing input): when every command raises, the
call returns the numeric Stats 0,0,0 — not unknown markers and with no
failure descriptor in the return type — and when one command raises
mid-collection, the cpu value 50 that had already been parsed is discarded
and replaced by 0 instead of being returned. -/
theorem command_failure_discards_stats :
    get_remote_stats (fun _ => ExecResult.raise) = ⟨0, 0, 0⟩ ∧
    get_remote_stats (fun m => match m with
      | Metric.cpu => ExecResult.ok "50"
      | Metric.memory => ExecResult.raise
      | Metric.disk => ExecResult.ok "60") = ⟨0, 0, 0⟩ :=
  ⟨rfl, rfl⟩

/-- C6: every remote monitoring run that successfully opens a session closes
it on every exit path — in dc2li.py the close is in a finally clause that
runs whether the collection and display body returns or raises, and in
dcli.py the remote monitor branch never opens a session at all because its
ssh_connect raises before connecting when called with no credentials. -/
theorem opened_sessions_always_closed :
    (∀ (host user : String) (key_path password : Option String) (timeout : ℚ)
        (net : String → Nat → ℚ → ConnectOutcome)
        (sshNet : ConnectAttempt → ConnectResult)
        (client : Metric → ExecResult) (displayFaults : Bool),
      (monitor_remote host user key_path password timeout net sshNet client
          displayFaults).sessionOpened = true →
      (monitor_remote host user key_path password timeout net sshNet client
          displayFaults).sessionClosed = true) ∧
    (∀ (host : String) (net : ConnectResult) (ex : DCLI.StepOutcome),
      (DCLI.monitor_remote host net ex).sessionOpened = true →
      (DCLI.monitor_remote host net ex).sessionClosed = true) := by
  constructor
  · intro host user key_path password timeout net sshNet client displayFaults h
    cases hp : test_connectivity host 22 timeout net with
    | false => simp [monitor_remote, hp] at h
    | true =>
      cases hs : (ssh_connect host user key_path password timeout sshNet).2 with
      | none => simp [monitor_remote, hp, hs] at h
      | some a => cases displayFaults <;> simp [monitor_remote, hp, hs]
  · intro host net ex h
    simp [DCLI.monitor_remote, DCLI.ssh_connect] at h

/-- C6 witness: a run that probes successfully, connects, and collects opens
a session, and the theorem shows it is closed. -/
theorem opened_sessions_always_closed_witness :
    (monitor_remote "web1" "root" none none 5 (fun _ _ _ => ConnectOutcome.code 0)
        (fun _ => ConnectResult.accepted) (fun _ => ExecResult.raise)
        false).sessionOpened = true ∧
    (monitor_remote "web1" "root" none none 5 (fun _ _ _ => ConnectOutcome.code 0)
        (fun _ => ConnectResult.accepted) (fun _ => ExecResult.raise)
        false).sessionClosed = true :=
  ⟨rfl,
   opened_sessions_always_closed.1 "web1" "root" none none 5
     (fun _ _ _ => ConnectOutcome.code 0) (fun _ => ConnectResult.accepted)
     (fun _ => ExecResult.raise) false rfl⟩

/-- C7: test_connectivity returns true exactly when the TCP connect completes
(connect_ex returned 0); every nonzero error code and every raised error
(DNS failure, unreachable network) yields false rather than a propagated
exception. -/
theorem test_connectivity_iff_connect_completes
    (host : String) (port : Nat) (timeout : ℚ)
    (net : String → Nat → ℚ → ConnectOutcome) :
    test_connectivity host port timeout net = true ↔
      net host port timeout = ConnectOutcome.code 0 := by
  unfold test_connectivity
  cases h : net host port timeout with
  | code r => simp
  | exn => simp

/-- C8 (code behavior): ssh_connect installs the auto-trusting
AutoAddPolicy on the client on every call, for every combination of host,
user, credentials, timeout and connection outcome — the unknown-host-key
auto-trust is baked in unconditionally, with no caller-facing option to opt
in or out. -/
theorem ssh_connect_always_auto_adds
    (host user : String) (key_path password : Option String) (timeout : ℚ)
    (net : ConnectAttempt → ConnectResult) :
    (ssh_connect host user key_path password timeout net).1 =
      HostKeyPolicy.autoAdd := by
  unfold ssh_connect
  cases net ⟨HostKeyPolicy.autoAdd, pick_credential key_path password⟩ <;> rfl

/-- C9: when the port-22 probe reports closed, _monitor_remote returns an
Unreachable report with no session opened, no stats collected, and the fixed
list of exactly 4 environment-independent troubleshooting entries. -/
theorem unreachable_yields_fixed_diagnostics
    (host user : String) (key_path password : Option String) (timeout : ℚ)
    (net : String → Nat → ℚ → ConnectOutcome)
    (sshNet : ConnectAttempt → ConnectResult)
    (client : Metric → ExecResult) (displayFaults : Bool)
    (hprobe : test_connectivity host 22 timeout net = false) :
    monitor_remote host user key_path password timeout net sshNet client displayFaults =
      ⟨HostStatus.unreachable, false, false, none, troubleshooting_tips⟩ ∧
    troubleshooting_tips.length = 4 := by
  refine ⟨?_, rfl⟩
  unfold monitor_remote
  rw [hprobe]
  rfl

/-- C9 witness: a probe that raises yields false, and the report carries the
fixed diagnostics with nothing attempted. -/
theorem unreachable_yields_fixed_diagnostics_witness :
    test_connectivity "db1" 22 5 (fun _ _ _ => ConnectOutcome.exn) = false ∧
    monitor_remote "db1" "root" none none 5 (fun _ _ _ => ConnectOutcome.exn)
        (fun _ => ConnectResult.accepted) (fun _ => ExecResult.raise) false =
      ⟨HostStatus.unreachable, false, false, none, troubleshooting_tips⟩ :=
  ⟨rfl,
   (unreachable_yields_fixed_diagnostics "db1" "root" none none 5
     (fun _ _ _ => ConnectOutcome.exn) (fun _ => ConnectResult.accepted)
     (fun _ => ExecResult.raise) false rfl).1⟩
